import Mathlib

/-!
Verification development for the Orbit container orchestrator
(github.com/f9-o/orbit).

The Go sources are shallowly embedded as executable Lean definitions:

* `api/v1` data types (`NodeInfo`, `ServiceSpec`, `ServiceState`,
  `DeploymentRecord`, …) become Lean structures; status enumerations
  become inductives.
* The BoltDB-backed store (`internal/core/state/state.go`) becomes a
  record of three association lists (the `nodes`, `services`,
  `deployments` buckets); bucket `Put` is an upsert on the list.
* `time.Duration` and `time.Time` values are modelled as `Int`
  (nanoseconds, respectively an abstract clock reading); Go `int`
  fields are `Int`.
* Effectful call paths (`Deployer.Deploy`, `Pool.Connect`,
  `Client.RunContainer`, the heartbeat tick of `Engine.watchLoop`)
  become pure functions that take the pre-state plus an explicit
  oracle describing the outcomes of the external calls (image pull,
  container start, health probe, network dial) and return the
  terminal outcome, the trace of runtime-adapter actions issued, and
  the post-state.  A Go runtime panic (out-of-range string slice
  such as `s[:12]` on a short string) is modelled as a distinct
  `panicked` outcome.
-/

namespace Orbit

/-! ## Data model (`api/v1`, part_001) -/

/-- `NodeStatus` from api/v1: connectivity state of a remote node. -/
inductive NodeStatus where
  | online
  | offline
  | degraded
deriving DecidableEq, Repr

/-- `ServiceStatus` from api/v1: health state of a running service. -/
inductive ServiceStatus where
  | healthy
  | degraded
  | unhealthy
  | unknown
deriving DecidableEq, Repr

/-- `NodeSpec` from api/v1 (declarative node definition). -/
structure NodeSpec where
  name : String
  host : String
  user : String
  key : String
  port : Int
deriving DecidableEq, Repr

/-- `NodeInfo` from api/v1 (persisted node record). -/
structure NodeInfo where
  spec : NodeSpec
  status : NodeStatus
  lastSeen : Int
  keyFingerprint : String
  hostKey : String
  hostKeyKnown : Bool
  failCount : Int
deriving DecidableEq, Repr

/-- `HealthCheckSpec` from api/v1.  Durations are nanoseconds. -/
structure HealthCheckSpec where
  type : String
  url : String
  port : Int
  command : String
  timeout : Int
  interval : Int
  retries : Int
  expectedCode : Int
deriving DecidableEq, Repr

/-- `DeploySpec` from api/v1 (rolling deploy policy). -/
structure DeploySpec where
  replicas : Int
  strategy : String
  maxSurge : Int
  rollbackOnFailure : Bool
  readinessDelay : Int
deriving DecidableEq, Repr

/-- `ServiceSpec` from api/v1 (fields the deploy path reads). -/
structure ServiceSpec where
  name : String
  image : String
  ports : List String
  environment : List (String × String)
  labels : List (String × String)
  volumes : List String
  user : String
  restartPolicy : String
  healthCheck : Option HealthCheckSpec
  deploy : Option DeploySpec
deriving DecidableEq, Repr

/-- `ServiceState` from api/v1 (persisted per-(node, service) state). -/
structure ServiceState where
  name : String
  containerID : String
  image : String
  status : ServiceStatus
  replicas : Int
  node : String
  startedAt : Int
deriving DecidableEq, Repr

/-- `DeploymentRecord` from api/v1 (immutable audit entry). -/
structure DeploymentRecord where
  id : String
  service : String
  node : String
  fromImage : String
  toImage : String
  startedAt : Int
  completedAt : Int
  result : String
  durationMS : Int
  error : String
deriving DecidableEq, Repr

/-! ## Store (`internal/core/state/state.go`)

BoltDB bucket `Put` overwrites the value at a key; we model each
bucket as an association list and `Put` as upsert. -/

/-- Upsert into an association list: overwrite the first binding of
`k` or append a new one (BoltDB `bucket.Put`). -/
def assocPut {β : Type} (k : String) (v : β) : List (String × β) → List (String × β)
  | [] => [(k, v)]
  | (k', v') :: rest =>
      if k' = k then (k, v) :: rest else (k', v') :: assocPut k v rest

/-- The three buckets of `state.DB` (`nodes`, `services`,
`deployments`). -/
structure DB where
  nodes : List (String × NodeInfo)
  services : List (String × ServiceState)
  deployments : List (String × DeploymentRecord)
deriving DecidableEq, Repr

namespace DB

/-- `DB.PutNode`: upsert keyed by `info.Spec.Name`. -/
def putNode (info : NodeInfo) (db : DB) : DB :=
  { db with nodes := assocPut info.spec.name info db.nodes }

/-- `DB.GetNode`: returns `none` when absent. -/
def getNode (name : String) (db : DB) : Option NodeInfo :=
  db.nodes.lookup name

/-- `DB.UpdateNodeStatus`: read-modify-write of status, last-seen and
fail-count; errors when the node is unknown. -/
def updateNodeStatus (name : String) (status : NodeStatus) (failCount : Int)
    (now : Int) (db : DB) : Except String DB :=
  match db.getNode name with
  | none => .error ("node " ++ name ++ " not found")
  | some info =>
      .ok (db.putNode { info with status := status, lastSeen := now,
                                  failCount := failCount })

/-- `DB.PutServiceState`: key is `state.Node ++ "/" ++ state.Name`. -/
def putServiceState (s : ServiceState) (db : DB) : DB :=
  { db with services := assocPut (s.node ++ "/" ++ s.name) s db.services }

/-- `DB.GetServiceState`: returns `none` when absent. -/
def getServiceState (node name : String) (db : DB) : Option ServiceState :=
  db.services.lookup (node ++ "/" ++ name)

/-- `DB.PutDeployment`: upsert keyed by `rec.ID`. -/
def putDeployment (rec : DeploymentRecord) (db : DB) : DB :=
  { db with deployments := assocPut rec.id rec db.deployments }

end DB

/-! ## Registry (`internal/remote/registry.go`) -/

/-- `Registry.Add`: refuses a taken name; otherwise stores the record
with status forced to offline and last-seen set to the current time.
(The fail count field is stored as given.) -/
def registryAdd (node : NodeInfo) (now : Int) (db : DB) : Except String DB :=
  match db.getNode node.spec.name with
  | some _ => .error ("node " ++ node.spec.name ++ " already registered")
  | none =>
      .ok (db.putNode { node with status := .offline, lastSeen := now })

/-- `Registry.MarkOnline`: status online, fail count 0. -/
def registryMarkOnline (name : String) (now : Int) (db : DB) : Except String DB :=
  db.updateNodeStatus name .online 0 now

/-- `Registry.MarkOffline`: degraded below the threshold of 3
consecutive failures, offline at or above it. -/
def registryMarkOffline (name : String) (failCount : Int) (now : Int)
    (db : DB) : Except String DB :=
  let status := if failCount ≥ 3 then NodeStatus.offline else NodeStatus.degraded
  db.updateNodeStatus name status failCount now

/-! ## Heartbeat tick (`Engine.watchLoop`, part_003)

One iteration of the per-node loop body: the probe outcome is the
oracle input, the local fail counter is threaded explicitly. -/

/-- A `NodeEvent` published on the heartbeat channel. -/
structure NodeEvent where
  node : String
  status : NodeStatus
deriving DecidableEq, Repr

/-- Result of one heartbeat tick: new local fail counter, store
outcome, events emitted. -/
structure TickResult where
  failCount : Int
  store : Except String DB
  events : List NodeEvent
deriving Repr

/-- One tick of `Engine.watchLoop` for `node`: on probe failure the
local counter increments and `MarkOffline` runs with it (emitting the
thresholded status); on success the counter resets and `MarkOnline`
runs (emitting a recovery event only if the counter was positive). -/
def heartbeatTick (node : NodeInfo) (failCount : Int) (probeErr : Bool)
    (now : Int) (db : DB) : TickResult :=
  if probeErr then
    let fc := failCount + 1
    let status := if fc ≥ 3 then NodeStatus.offline else NodeStatus.degraded
    { failCount := fc,
      store := registryMarkOffline node.spec.name fc now db,
      events := [⟨node.spec.name, status⟩] }
  else
    { failCount := 0,
      store := registryMarkOnline node.spec.name now db,
      events := if failCount > 0 then [⟨node.spec.name, .online⟩] else [] }

/-- Modelled from the spec: the threshold function of §3 / §8 — fail
count 0 maps to online, 1–2 to degraded, 3 or more to offline. -/
def statusThreshold (failCount : Int) : NodeStatus :=
  if failCount = 0 then .online
  else if failCount < 3 then .degraded
  else .offline

/-! ## Health checker (`Checker.WaitHealthy`, part_002)

For the counting claims we instantiate the loop with a probe that
always fails and a context that is never cancelled, and count the
attempts and inter-attempt sleeps the loop performs. -/

/-- `DefaultRetries` from the health package. -/
def defaultRetries : Int := 3

/-- The `for attempt := 0; attempt <= retries; attempt++` loop of
`WaitHealthy` with an always-failing probe and no cancellation:
returns `(attempts performed, sleeps performed)`.  A sleep precedes
every attempt except the one at `attempt = 0`. -/
def whLoopFailing (retries : Int) (attempt : Int) : Nat × Nat :=
  if h : attempt ≤ retries then
    let rest := whLoopFailing retries (attempt + 1)
    (rest.1 + 1, rest.2 + (if 0 < attempt then 1 else 0))
  else (0, 0)
termination_by (retries + 1 - attempt).toNat
decreasing_by omega

/-- `WaitHealthy` attempt/sleep count for an always-failing probe:
the configured retries default to `DefaultRetries` when they are 0
(the Go zero value), then the loop runs from attempt 0 to `retries`
inclusive. -/
def waitHealthyCountFailing (hcRetries : Int) : Nat × Nat :=
  let retries := if hcRetries = 0 then defaultRetries else hcRetries
  whLoopFailing retries 0

/-! ## Transport pool (`internal/remote/ssh.go`)

The dial oracle supplies the fingerprint of the host key the server
presents and whether the TCP/auth layers succeed; a pooled
connection records whether its keepalive probe still succeeds. -/

/-- Token for a live `ssh.Client`. -/
structure SSHClient where
  node : String
deriving DecidableEq, Repr

/-- Error kinds `Pool.dial` / `Pool.Connect` can produce. -/
inductive DialError where
  | noKey
  | connectFail
  | mismatch (got expected : String)
deriving DecidableEq, Repr

/-- An entry of the pool's name→connection map. -/
structure PoolConn where
  client : SSHClient
  alive : Bool
deriving DecidableEq, Repr

/-- The pool state: the guarded name→connection map. -/
structure Pool where
  conns : List (String × PoolConn)
deriving DecidableEq, Repr

/-- `Pool.dial`: fails without a configured key; with
`HostKeyKnown && HostKey != ""` the presented fingerprint must equal
the stored one, otherwise the host key is accepted unverified. -/
def dial (node : NodeInfo) (presentedFp : String) (netOk : Bool) :
    Except DialError SSHClient :=
  if node.spec.key = "" then .error .noKey
  else if ¬netOk then .error .connectFail
  else if node.hostKeyKnown ∧ node.hostKey ≠ "" then
    if presentedFp ≠ node.keyFingerprint then
      .error (.mismatch presentedFp node.keyFingerprint)
    else .ok ⟨node.spec.name⟩
  else .ok ⟨node.spec.name⟩

/-- `Pool.Connect`: a pooled connection whose keepalive still answers
is returned as-is; a dead one is evicted and a fresh dial happens; a
dial error is returned without storing anything. -/
def poolConnect (p : Pool) (node : NodeInfo) (presentedFp : String)
    (netOk : Bool) : Except DialError SSHClient × Pool :=
  let afterDial : Pool → Except DialError SSHClient × Pool := fun p' =>
    match dial node presentedFp netOk with
    | .error e => (.error e, p')
    | .ok cl =>
        (.ok cl, ⟨assocPut node.spec.name ⟨cl, true⟩ p'.conns⟩)
  match p.conns.lookup node.spec.name with
  | some c =>
      if c.alive then (.ok c.client, p)
      else afterDial ⟨p.conns.filter (fun kv => !(kv.1 == node.spec.name))⟩
  | none => afterDial p

/-- Result of `Pool.Run`. -/
inductive RunCmdResult where
  | output (out : String) (exit : Int)
  | err (e : DialError)
deriving DecidableEq, Repr

/-- `Pool.Run`: connect, then execute the command on the transport
(the command's output and exit code are oracle inputs). -/
def poolRun (p : Pool) (node : NodeInfo) (presentedFp : String)
    (netOk : Bool) (cmdOut : String) (cmdExit : Int) : RunCmdResult × Pool :=
  match poolConnect p node presentedFp netOk with
  | (.error e, p') => (.err e, p')
  | (.ok _, p') => (.output cmdOut cmdExit, p')

/-! ## Deployer (`internal/orchestrator/deploy.go`) -/

/-- `DeployOptions`: tag override, timeout override (nanoseconds),
dry-run flag. -/
structure DeployOptions where
  tag : String
  timeout : Int
  dryRun : Bool
deriving DecidableEq, Repr

/-- `DefaultDeployTimeout = 120 * time.Second` in nanoseconds. -/
def defaultDeployTimeout : Int := 120 * 1000000000

/-- The backwards scan of `lastColonIdx`: inspects indices
`i-1, i-2, …, 0` and returns the first (largest) index holding a
colon, `-1` when none does. -/
def lastColonIdxFrom (s : List Char) : Nat → Int
  | 0 => -1
  | i + 1 => if s[i]? = some ':' then (i : Int) else lastColonIdxFrom s i

/-- `lastColonIdx` from deploy.go: index of the last colon or `-1`. -/
def lastColonIdx (s : List Char) : Int :=
  lastColonIdxFrom s s.length

/-- The tag-override step at the top of `Deployer.Deploy`: with a
non-empty tag, `image[:idx+1] + tag` when a colon exists at `idx`,
else `image + ":" + tag`. -/
def applyTag (image tag : String) : String :=
  if tag = "" then image
  else
    let idx := lastColonIdx image.data
    if idx ≠ -1 then ⟨image.data.take (idx.toNat + 1) ++ tag.data⟩
    else image ++ ":" ++ tag

/-- The timeout computation of `Deployer.Deploy` (lines 56–62): start
from the default, replace by a positive `opts.Timeout`, then — when
the spec has both a deploy sub-spec and a health check with positive
timeout — replace by `hc.Timeout * (hc.Retries + 2)`. -/
def effectiveTimeout (spec : ServiceSpec) (opts : DeployOptions) : Int :=
  let t0 := defaultDeployTimeout
  let t1 := if opts.timeout > 0 then opts.timeout else t0
  match spec.deploy, spec.healthCheck with
  | some _, some hc => if hc.timeout > 0 then hc.timeout * (hc.retries + 2) else t1
  | _, _ => t1

/-- Calls `Deploy` issues against the runtime adapter. -/
inductive DockerAction where
  | pull (image : String)
  | runContainer (image name : String)
  | stop (id : String) (remove : Bool)
  | rename (id newName : String)
deriving DecidableEq, Repr

/-- Error kinds of the deploy path (`pkg/errs`). -/
inductive ErrKind where
  | stateRead
  | dockerPull
  | dockerRun
  | serviceHealthFail
deriving DecidableEq, Repr

/-- Terminal outcome of a `Deploy` call.  `panicked` models a Go
runtime panic (an out-of-range slice `s[:12]`). -/
inductive DeployOutcome where
  | dryRunOk
  | success
  | failed (k : ErrKind)
  | panicked
deriving DecidableEq, Repr

/-- Oracle for the external calls `Deploy` makes. -/
structure DeployEnv where
  pullOk : Bool
  shadowStart : Except Unit String
  healthPass : Bool
  timestamp : Int
  now : Int
deriving Repr

/-- Outcome, runtime-action trace, and post-store of a `Deploy`. -/
structure DeployResult where
  outcome : DeployOutcome
  trace : List DockerAction
  db : DB
deriving Repr

/-- Steps 5–6 of `Deploy` (rename to the canonical name, persist the
new `ServiceState`); rename errors are logged and ignored. -/
def deployFinish (spec : ServiceSpec) (node image newID : String)
    (acts : List DockerAction) (now : Int) (db : DB) : DeployResult :=
  let acts1 := acts ++ [DockerAction.rename newID spec.name]
  let st : ServiceState :=
    { name := spec.name, containerID := newID, image := image,
      status := .healthy, replicas := 0, node := node, startedAt := now }
  ⟨.success, acts1, db.putServiceState st⟩

/-- Step 4 of `Deploy` (stop the old container, when a prior state
with a non-empty container id exists) followed by `deployFinish`.
The log line slices `existing.ContainerID[:12]`, which panics when
the id is non-empty but shorter than 12 bytes. -/
def deployPromote (spec : ServiceSpec) (node image newID : String)
    (existing : Option ServiceState) (acts : List DockerAction)
    (now : Int) (db : DB) : DeployResult :=
  match existing with
  | some ex =>
      if ex.containerID ≠ "" then
        if ex.containerID.length < 12 then ⟨.panicked, acts, db⟩
        else deployFinish spec node image newID
          (acts ++ [DockerAction.stop ex.containerID true]) now db
      else deployFinish spec node image newID acts now db
  | none => deployFinish spec node image newID acts now db

/-- `Deployer.Deploy`: tag resolution, dry-run early return, prior
state lookup, pull, shadow start, optional health gate with the
rollback branch, then promotion.  The rollback branch first stops and
removes the shadow, then — when a prior state exists and
`Deploy.RollbackOnFailure` is set — logs `existing.ContainerID[:12]`
(panicking on an id shorter than 12 bytes) and starts a container
from the prior image under the canonical service name, and finally
returns the health-fail error. -/
def deploy (spec : ServiceSpec) (node : String) (opts : DeployOptions)
    (env : DeployEnv) (db : DB) : DeployResult :=
  let image := applyTag spec.image opts.tag
  if opts.dryRun then ⟨.dryRunOk, [], db⟩
  else
    let existing := db.getServiceState node spec.name
    if ¬env.pullOk then ⟨.failed .dockerPull, [.pull image], db⟩
    else
      let newName := spec.name ++ "-new-" ++ toString env.timestamp
      match env.shadowStart with
      | .error _ =>
          ⟨.failed .dockerRun, [.pull image, .runContainer image newName], db⟩
      | .ok newID =>
          let acts0 := [DockerAction.pull image, .runContainer image newName]
          match spec.healthCheck with
          | some _ =>
              if env.healthPass then
                deployPromote spec node image newID existing acts0 env.now db
              else
                let acts1 := acts0 ++ [DockerAction.stop newID true]
                match existing, spec.deploy with
                | some ex, some d =>
                    if d.rollbackOnFailure then
                      if ex.containerID.length < 12 then ⟨.panicked, acts1, db⟩
                      else ⟨.failed .serviceHealthFail,
                            acts1 ++ [.runContainer ex.image spec.name], db⟩
                    else ⟨.failed .serviceHealthFail, acts1, db⟩
                | _, _ => ⟨.failed .serviceHealthFail, acts1, db⟩
          | none => deployPromote spec node image newID existing acts0 env.now db

/-! ## Docker client (`Client.RunContainer`, docker.go) -/

/-- A container known to the runtime. -/
structure ContainerRec where
  id : String
  name : String
  running : Bool
deriving DecidableEq, Repr

/-- The runtime's container table. -/
structure DockerState where
  containers : List ContainerRec
deriving DecidableEq, Repr

/-- Outcome of `Client.RunContainer`. -/
inductive RunOutcome where
  | ok (id : String)
  | err
  | panicked
deriving DecidableEq, Repr

/-- `Client.RunContainer`: create, then start; a start failure
force-removes the freshly created container before returning the
error (whose message slices `resp.ID[:12]`, panicking on an id
shorter than 12 bytes). -/
def dockerRunContainer (st : DockerState) (name : String)
    (createOk : Bool) (newId : String) (startOk : Bool) :
    RunOutcome × DockerState :=
  if ¬createOk then (.err, st)
  else
    let st1 : DockerState := ⟨st.containers ++ [⟨newId, name, false⟩]⟩
    if ¬startOk then
      let st2 : DockerState := ⟨st1.containers.filter (fun c => !(c.id == newId))⟩
      if newId.length < 12 then (.panicked, st2) else (.err, st2)
    else
      (.ok newId,
       ⟨st1.containers.map (fun c =>
          if c.id = newId then { c with running := true } else c)⟩)

/-! ## Concrete instances used by witnesses and counterexamples -/

/-- A registered node with an accumulated fail count of 5. -/
def exNode5 : NodeInfo :=
  ⟨⟨"n5", "198.51.100.7", "deploy", "id_ed25519", 22⟩, .online, 7,
   "ab:cd", "AAAAkey", true, 5⟩

/-- A store holding one node named n1. -/
def exNode1 : NodeInfo :=
  ⟨⟨"n1", "198.51.100.8", "deploy", "id_ed25519", 22⟩, .online, 0, "", "", false, 0⟩

/-- Store with n1 registered. -/
def exDb1 : DB := ⟨[("n1", exNode1)], [], []⟩

/-- Health check with a 5 s timeout and 3 retries. -/
def exHc : HealthCheckSpec :=
  ⟨"http", "http://localhost:80/", 0, "", 5000000000, 1000000000, 3, 0⟩

/-- Deploy policy with rollback on failure. -/
def exDeploySpec : DeploySpec := ⟨0, "rolling", 0, true, 0⟩

/-- Service spec with both a deploy sub-spec and a health check. -/
def exSpecWeb : ServiceSpec :=
  { name := "web", image := "nginx:1.24", ports := [], environment := [],
    labels := [], volumes := [], user := "", restartPolicy := "",
    healthCheck := some exHc, deploy := some exDeploySpec }

/-- Prior state of `web` on node1 with a full-length container id. -/
def exPrior : ServiceState :=
  ⟨"web", "cccccccccccc", "nginx:1.23", .healthy, 0, "node1", 0⟩

/-- Prior state of `web` on node1 with an empty container id. -/
def exPriorEmptyId : ServiceState :=
  ⟨"web", "", "nginx:1.23", .healthy, 0, "node1", 0⟩

/-- Store holding the prior state of `web`. -/
def exDb2 : DB := ⟨[], [("node1/web", exPrior)], []⟩

/-- Store holding the empty-id prior state of `web`. -/
def exDb7 : DB := ⟨[], [("node1/web", exPriorEmptyId)], []⟩

/-- Oracle: pull succeeds, shadow starts as dddddddddddd, health fails. -/
def exEnvHealthFail : DeployEnv := ⟨true, .ok "dddddddddddd", false, 171, 42⟩

/-- Oracle: pull succeeds, shadow starts, health passes. -/
def exEnvHealthPass : DeployEnv := ⟨true, .ok "dddddddddddd", true, 171, 42⟩

/-- Options: tag override 1.25, no timeout override, not a dry run. -/
def exOpts : DeployOptions := ⟨"1.25", 0, false⟩

/-- A trusted node whose stored encoded host key is empty. -/
def exNode6 : NodeInfo :=
  ⟨⟨"n6", "198.51.100.9", "deploy", "id_ed25519", 22⟩, .offline, 0,
   "AA:BB", "", true, 0⟩

/-- A trusted node with stored fingerprint AA:BB and a non-empty
encoded host key. -/
def exNode6b : NodeInfo :=
  ⟨⟨"n6", "198.51.100.9", "deploy", "id_ed25519", 22⟩, .offline, 0,
   "AA:BB", "AAAAkey", true, 0⟩

/-- The record a failing first probe writes for n1. -/
def exNode1Deg : NodeInfo :=
  { exNode1 with status := .degraded, lastSeen := 5, failCount := 1 }

/-- The store after that write. -/
def exDb1Deg : DB := ⟨[("n1", exNode1Deg)], [], []⟩

/-! ## Store lemmas -/

theorem lookup_assocPut_self {β : Type} (k : String) (v : β)
    (l : List (String × β)) : (assocPut k v l).lookup k = some v := by
  induction l with
  | nil => simp [assocPut, List.lookup]
  | cons kv rest ih =>
      obtain ⟨k1, v1⟩ := kv
      by_cases h : k1 = k
      · subst h; simp [assocPut, List.lookup]
      · have hb : (k == k1) = false := by simp [Ne.symm h]
        simp [assocPut, h, List.lookup, hb, ih]

theorem lookup_pair_mem {β : Type} {l : List (String × β)} {k : String} {v : β}
    (h : l.lookup k = some v) : (k, v) ∈ l := by
  induction l with
  | nil => simp [List.lookup] at h
  | cons kv rest ih =>
      obtain ⟨k1, v1⟩ := kv
      by_cases hk : k = k1
      · subst hk; simp [List.lookup] at h; simp [h]
      · have hb : (k == k1) = false := by simp [hk]
        simp [List.lookup, hb] at h
        exact List.mem_cons_of_mem _ (ih h)

/-! ## Claim C5 — heartbeat status equals the threshold function -/

theorem getNode_putNode_self (info : NodeInfo) (db : DB) :
    (db.putNode info).getNode info.spec.name = some info := by
  simp only [DB.putNode, DB.getNode]
  exact lookup_assocPut_self _ _ _

theorem updateNodeStatus_readback (name : String) (st : NodeStatus)
    (fc now : Int) (db db' : DB)
    (hwf : ∀ kv ∈ db.nodes, kv.2.spec.name = kv.1)
    (hok : db.updateNodeStatus name st fc now = Except.ok db')
    (info : NodeInfo) (hget : db'.getNode name = some info) :
    info.status = st ∧ info.failCount = fc := by
  unfold DB.updateNodeStatus at hok
  cases hg : db.getNode name with
  | none => simp [hg] at hok
  | some info0 =>
      simp only [hg, Except.ok.injEq] at hok
      have hname : info0.spec.name = name := hwf _ (lookup_pair_mem hg)
      subst hok
      have hgets := getNode_putNode_self
        { info0 with status := st, lastSeen := now, failCount := fc } db
      rw [hname] at hgets
      rw [hgets] at hget
      have hw := Option.some.inj hget
      rw [← hw]
      exact ⟨rfl, rfl⟩

/-- C5: after a heartbeat tick for a watched node whose store write
succeeds, the stored status equals the threshold function of the
stored fail count (0 → online, 1–2 → degraded, ≥3 → offline).  The
local fail counter is non-negative, and the node bucket is well-keyed
(every record sits under its own name). -/
theorem heartbeatTick_status_matches_threshold
    (node : NodeInfo) (fc : Int) (probeErr : Bool) (now : Int) (db db' : DB)
    (hwf : ∀ kv ∈ db.nodes, kv.2.spec.name = kv.1)
    (hfc : 0 ≤ fc)
    (hok : (heartbeatTick node fc probeErr now db).store = Except.ok db')
    (info : NodeInfo)
    (hget : db'.getNode node.spec.name = some info) :
    info.status = statusThreshold info.failCount := by
  cases probeErr with
  | true =>
      simp only [heartbeatTick, if_pos] at hok
      unfold registryMarkOffline at hok
      obtain ⟨hst, hfc2⟩ := updateNodeStatus_readback _ _ _ _ _ _ hwf hok _ hget
      rw [hst, hfc2, statusThreshold]
      by_cases h3 : fc + 1 ≥ 3
      · rw [if_pos h3, if_neg (by omega), if_neg (by omega)]
      · rw [if_neg h3, if_neg (by omega), if_pos (by omega)]
  | false =>
      simp only [heartbeatTick, Bool.false_eq_true, if_false] at hok
      unfold registryMarkOnline at hok
      obtain ⟨hst, hfc2⟩ := updateNodeStatus_readback _ _ _ _ _ _ hwf hok _ hget
      rw [hst, hfc2]
      simp [statusThreshold]

/-- C5 witness: a failing probe against the one-node store writes
degraded with fail count 1, which the threshold function maps back
to degraded. -/
theorem heartbeatTick_status_matches_threshold_witness :
    (∀ kv ∈ exDb1.nodes, kv.2.spec.name = kv.1) ∧ (0 : Int) ≤ 0 ∧
    (heartbeatTick exNode1 0 true 5 exDb1).store = Except.ok exDb1Deg ∧
    exDb1Deg.getNode "n1" = some exNode1Deg ∧
    exNode1Deg.status = statusThreshold exNode1Deg.failCount :=
  ⟨by decide, by decide, by rfl, by rfl,
   heartbeatTick_status_matches_threshold exNode1 0 true 5 exDb1 exDb1Deg
     (by decide) (by decide) (by rfl) exNode1Deg (by rfl)⟩

/-! ## Claim C9 — registration round-trip -/

/-- C9 (amended): registering a fresh node and reading it back
returns the record with status reset to offline and last-seen set to
the registration time; the fail count is carried over unchanged (it
is not reset to 0). -/
theorem registryAdd_roundtrip (x : NodeInfo) (now : Int) (db : DB)
    (h : db.getNode x.spec.name = none) :
    registryAdd x now db =
      Except.ok (db.putNode { x with status := .offline, lastSeen := now }) ∧
    (db.putNode { x with status := .offline, lastSeen := now }).getNode
        x.spec.name =
      some { x with status := .offline, lastSeen := now } := by
  refine ⟨by simp [registryAdd, h], ?_⟩
  simp only [DB.putNode, DB.getNode]
  exact lookup_assocPut_self _ _ _

/-- C9 witness: the round-trip at a concrete node with fail count 5
on the empty store. -/
theorem registryAdd_roundtrip_witness :
    (DB.getNode exNode5.spec.name ⟨[], [], []⟩ = none) ∧
    registryAdd exNode5 9 ⟨[], [], []⟩ =
      Except.ok (DB.putNode { exNode5 with status := .offline, lastSeen := 9 }
        ⟨[], [], []⟩) ∧
    (DB.putNode { exNode5 with status := .offline, lastSeen := 9 }
        ⟨[], [], []⟩).getNode exNode5.spec.name =
      some { exNode5 with status := .offline, lastSeen := 9 } :=
  ⟨by decide,
   (registryAdd_roundtrip exNode5 9 ⟨[], [], []⟩ (by decide)).1,
   (registryAdd_roundtrip exNode5 9 ⟨[], [], []⟩ (by decide)).2⟩

/-- C9 counterexample: a node whose fail count is 5 reads back with
fail count 5, not 0, after registration — the claim's "fail-count
reset to 0" fails on the code. -/
theorem registryAdd_failCount_not_reset :
    ((registryAdd exNode5 9 ⟨[], [], []⟩).toOption.bind
        (fun db => db.getNode "n5")).map NodeInfo.failCount = some 5 ∧
    (5 : Int) ≠ 0 := by
  constructor
  · rfl
  · decide

/-! ## Claim C3 — the effective deploy timeout -/

/-- C3 (amended): whenever the spec has both a deploy sub-spec and a
health check with positive timeout, the effective timeout is
`hc.timeout * (hc.retries + 2)` regardless of `opts.timeout`;
otherwise it is `opts.timeout` when positive and
`DefaultDeployTimeout` when not. -/
theorem effectiveTimeout_amended (spec : ServiceSpec) (opts : DeployOptions) :
    (∀ d hc, spec.deploy = some d → spec.healthCheck = some hc →
        0 < hc.timeout →
        effectiveTimeout spec opts = hc.timeout * (hc.retries + 2)) ∧
    ((spec.deploy = none ∨ spec.healthCheck = none ∨
        ∀ hc, spec.healthCheck = some hc → hc.timeout ≤ 0) →
      (0 < opts.timeout → effectiveTimeout spec opts = opts.timeout) ∧
      (opts.timeout ≤ 0 → effectiveTimeout spec opts = defaultDeployTimeout)) := by
  constructor
  · intro d hc hd hhc ht
    simp [effectiveTimeout, hd, hhc, ht]
  · intro hcase
    have hbranch : effectiveTimeout spec opts =
        (if opts.timeout > 0 then opts.timeout else defaultDeployTimeout) := by
      rcases hcase with h | h | h
      · cases hhc : spec.healthCheck <;> simp [effectiveTimeout, h, hhc]
      · cases hd : spec.deploy <;> simp [effectiveTimeout, h, hd]
      · cases hd : spec.deploy with
        | none => cases hhc : spec.healthCheck <;>
            simp [effectiveTimeout, hd, hhc]
        | some d =>
            cases hhc : spec.healthCheck with
            | none => simp [effectiveTimeout, hd, hhc]
            | some hc =>
                have := h hc hhc
                simp [effectiveTimeout, hd, hhc, show ¬(0 < hc.timeout) by omega]
    refine ⟨fun hpos => ?_, fun hnonpos => ?_⟩
    · rw [hbranch, if_pos hpos]
    · rw [hbranch, if_neg (by omega)]

/-- C3 witness: with a 5 s health-check timeout, 3 retries and a
deploy sub-spec present, the effective timeout is 5 s × 5. -/
theorem effectiveTimeout_amended_witness :
    effectiveTimeout exSpecWeb ⟨"", 10000000000, false⟩ =
      exHc.timeout * (exHc.retries + 2) :=
  (effectiveTimeout_amended exSpecWeb ⟨"", 10000000000, false⟩).1
    exDeploySpec exHc rfl rfl (by decide)

/-- C3 counterexample: a positive `opts.Timeout` of 10 s is
overridden by the health-check computation (25 s), so the claim
"the effective timeout equals opts.Timeout whenever it is positive"
fails on the code. -/
theorem effectiveTimeout_ignores_positive_opts :
    effectiveTimeout exSpecWeb ⟨"", 10000000000, false⟩ = 25000000000 ∧
    (25000000000 : Int) ≠ 10000000000 ∧ (0 : Int) < 10000000000 := by
  refine ⟨by decide, by decide, by decide⟩

/-! ## Claim C4 — WaitHealthy attempt and sleep counts -/

theorem whLoopFailing_count (n : Nat) : ∀ (r a : Int), 0 ≤ a → a ≤ r →
    (r - a).toNat = n →
    whLoopFailing r a = (n + 1, n + if 0 < a then 1 else 0) := by
  induction n with
  | zero =>
      intro r a h0 h1 h2
      rw [whLoopFailing, dif_pos h1, whLoopFailing,
        dif_neg (by omega : ¬(a + 1 ≤ r))]
  | succ k ih =>
      intro r a h0 h1 h2
      rw [whLoopFailing, dif_pos h1,
        ih r (a + 1) (by omega) (by omega) (by omega),
        if_pos (by omega : (0 : Int) < a + 1)]

/-- C4 (amended): with an always-failing probe and no cancellation,
`WaitHealthy` performs exactly `R + 1` attempts with `R`
inter-attempt sleeps for any configured `retries = R ≥ 1`; for
`retries = 0` the Go zero value is replaced by the default of 3
retries, yielding 4 attempts and 3 sleeps rather than a single
attempt. -/
theorem waitHealthy_attempt_sleep_count (R : Int) (h : 1 ≤ R) :
    waitHealthyCountFailing R = (R.toNat + 1, R.toNat) ∧
    waitHealthyCountFailing 0 = (4, 3) := by
  constructor
  · unfold waitHealthyCountFailing
    rw [if_neg (by omega : ¬R = 0),
      whLoopFailing_count R.toNat R 0 (by omega) (by omega) (by omega)]
    simp
  · unfold waitHealthyCountFailing
    rw [if_pos rfl,
      whLoopFailing_count 3 defaultRetries 0 (by omega)
        (by simp [defaultRetries]) (by simp [defaultRetries])]
    simp

/-- C4 witness: with `retries = 2` the loop performs 3 attempts and
2 sleeps. -/
theorem waitHealthy_attempt_sleep_count_witness :
    (1 : Int) ≤ 2 ∧
    (waitHealthyCountFailing 2 = ((2 : Int).toNat + 1, (2 : Int).toNat) ∧
     waitHealthyCountFailing 0 = (4, 3)) :=
  ⟨by decide, waitHealthy_attempt_sleep_count 2 (by decide)⟩

/-- C4 counterexample: a health check configured with `retries = 0`
produces 4 attempts and 3 sleeps, not the single immediate attempt
the claim states. -/
theorem waitHealthy_zero_retries_not_one_attempt :
    waitHealthyCountFailing 0 = (4, 3) ∧ ((4, 3) : Nat × Nat) ≠ (1, 0) := by
  refine ⟨?_, by decide⟩
  unfold waitHealthyCountFailing
  rw [if_pos rfl,
    whLoopFailing_count 3 defaultRetries 0 (by omega)
      (by simp [defaultRetries]) (by simp [defaultRetries])]
  simp

/-! ## Claim C6 — host-key mismatch aborts the dial -/

/-- C6 (amended): for a node whose host-key-known flag is set, whose
stored encoded host key is non-empty, and that has a configured
private-key path, a dial presented a differing fingerprint aborts
with a host-key-mismatch error, no transport is stored in the pool,
and a subsequent Run (against the unchanged pool) repeats the
mismatch error.  (When the flag is set but the stored encoded host
key is empty, the code skips verification entirely.) -/
theorem connect_mismatch (p : Pool) (node : NodeInfo) (fp co : String)
    (ce : Int)
    (hknown : node.hostKeyKnown = true)
    (hhk : node.hostKey ≠ "")
    (hkey : node.spec.key ≠ "")
    (hfp : fp ≠ node.keyFingerprint)
    (hnone : p.conns.lookup node.spec.name = none) :
    poolConnect p node fp true =
      (.error (.mismatch fp node.keyFingerprint), p) ∧
    poolRun p node fp true co ce =
      (.err (.mismatch fp node.keyFingerprint), p) := by
  have hdial : dial node fp true =
      .error (.mismatch fp node.keyFingerprint) := by
    unfold dial
    rw [if_neg hkey, if_neg (by simp), if_pos ⟨by simp [hknown], hhk⟩,
      if_pos hfp]
  have hconn : poolConnect p node fp true =
      (.error (.mismatch fp node.keyFingerprint), p) := by
    unfold poolConnect
    simp only [hnone, hdial]
  refine ⟨hconn, ?_⟩
  unfold poolRun
  rw [hconn]

/-- C6 witness: the mismatch behaviour at a concrete trusted node
with stored fingerprint AA:BB presented CC:DD. -/
theorem connect_mismatch_witness :
    poolConnect ⟨[]⟩ exNode6b "CC:DD" true =
      (.error (.mismatch "CC:DD" exNode6b.keyFingerprint), ⟨[]⟩) ∧
    poolRun ⟨[]⟩ exNode6b "CC:DD" true "out" 0 =
      (.err (.mismatch "CC:DD" exNode6b.keyFingerprint), ⟨[]⟩) :=
  connect_mismatch ⟨[]⟩ exNode6b "CC:DD" "out" 0 rfl (by decide) (by decide)
    (by decide) rfl

/-- C6 counterexample: a node whose host-key-known flag is set but
whose stored encoded host key is empty accepts a differing
fingerprint — the dial succeeds and a transport is stored, so the
claim fails for such a node. -/
theorem connect_emptyHostKey_not_mismatch :
    exNode6.hostKeyKnown = true ∧
    "CC:DD" ≠ exNode6.keyFingerprint ∧
    (poolConnect ⟨[]⟩ exNode6 "CC:DD" true).1 = .ok ⟨"n6"⟩ ∧
    (poolConnect ⟨[]⟩ exNode6 "CC:DD" true).2.conns ≠ [] := by
  refine ⟨rfl, by decide, by rfl, by decide⟩

/-! ## Claim C1 — every terminal edge appends a DeploymentRecord -/

theorem deployFinish_deployments (s : ServiceSpec) (n i nid : String)
    (acts : List DockerAction) (now : Int) (d : DB) :
    (deployFinish s n i nid acts now d).db.deployments = d.deployments := rfl

theorem deployPromote_deployments (s : ServiceSpec) (n i nid : String)
    (ex : Option ServiceState) (acts : List DockerAction) (now : Int)
    (d : DB) :
    (deployPromote s n i nid ex acts now d).db.deployments = d.deployments := by
  unfold deployPromote
  rcases ex with _ | e
  · exact deployFinish_deployments ..
  · by_cases h1 : e.containerID ≠ "" <;> by_cases h2 : e.containerID.length < 12 <;>
      simp [h1, h2, deployFinish_deployments]

/-- C1 evaluated on the code: a non-dry-run `Deploy` leaves the
deployments bucket exactly as it found it on every terminal edge —
no `DeploymentRecord` is ever appended (nothing in the repository
calls `PutDeployment`), contradicting the claim. -/
theorem deploy_writes_no_deployment_record
    (spec : ServiceSpec) (node : String) (opts : DeployOptions)
    (env : DeployEnv) (db : DB) (h : opts.dryRun = false) :
    (deploy spec node opts env db).db.deployments = db.deployments := by
  unfold deploy
  rw [if_neg (by simp [h])]
  by_cases hp : env.pullOk
  · simp only [hp, not_true_eq_false, if_false, Bool.true_eq_false, ite_false]
    cases hss : env.shadowStart with
    | error e => simp
    | ok newID =>
        simp only []
        cases hhc : spec.healthCheck with
        | none => simp [deployPromote_deployments]
        | some hc =>
            by_cases hhp : env.healthPass
            · simp [hhp, deployPromote_deployments]
            · simp only [hhp, Bool.false_eq_true, if_false, ite_false]
              cases hex : db.getServiceState node spec.name with
              | none => cases hd : spec.deploy <;> simp
              | some ex =>
                  cases hd : spec.deploy with
                  | none => simp
                  | some d =>
                      by_cases hrb : d.rollbackOnFailure <;>
                        by_cases hl : ex.containerID.length < 12 <;>
                          simp [hrb, hl]
  · simp [hp]

/-- C1 witness: the rollback-path run at the concrete inputs leaves
the deployments bucket unchanged. -/
theorem deploy_writes_no_deployment_record_witness :
    exOpts.dryRun = false ∧
    (deploy exSpecWeb "node1" exOpts exEnvHealthFail exDb2).db.deployments =
      exDb2.deployments :=
  ⟨rfl, deploy_writes_no_deployment_record exSpecWeb "node1" exOpts
    exEnvHealthFail exDb2 rfl⟩

/-! ## Claim C2 — behaviour of the rollback path -/

/-- C2 (amended): when the health gate fails with rollback enabled, a
prior state present, and the prior container id at least 12 bytes
long (shorter non-empty ids panic in the rollback log line), the
shadow is stopped and removed, a container is started from the prior
image under the canonical service name, the store — and hence the
stored ServiceState — is unchanged, and the call terminates by
returning a service-health-fail error; no rolledback result exists
anywhere in the code. -/
theorem deploy_rollback_behaviour
    (spec : ServiceSpec) (node : String) (opts : DeployOptions)
    (env : DeployEnv) (db : DB) (hcSpec : HealthCheckSpec) (d : DeploySpec)
    (ex : ServiceState) (newID : String)
    (hdr : opts.dryRun = false)
    (hhc : spec.healthCheck = some hcSpec)
    (hd : spec.deploy = some d)
    (hrb : d.rollbackOnFailure = true)
    (hex : db.getServiceState node spec.name = some ex)
    (hlen : 12 ≤ ex.containerID.length)
    (hpull : env.pullOk = true)
    (hstart : env.shadowStart = Except.ok newID)
    (hhp : env.healthPass = false) :
    deploy spec node opts env db =
      ⟨.failed .serviceHealthFail,
       [.pull (applyTag spec.image opts.tag),
        .runContainer (applyTag spec.image opts.tag)
          (spec.name ++ "-new-" ++ toString env.timestamp),
        .stop newID true,
        .runContainer ex.image spec.name],
       db⟩ := by
  unfold deploy
  rw [if_neg (by simp [hdr])]
  simp only [hex, hpull, hstart, hhc, hhp, hd, hrb, not_true_eq_false,
    if_false, Bool.false_eq_true, ite_false, ite_true]
  rw [if_neg (by omega : ¬ex.containerID.length < 12)]
  simp

/-- C2 witness: the amended behaviour at the concrete happy-rollback
inputs (prior image nginx:1.23, shadow dddddddddddd). -/
theorem deploy_rollback_behaviour_witness :
    deploy exSpecWeb "node1" exOpts exEnvHealthFail exDb2 =
      ⟨.failed .serviceHealthFail,
       [.pull (applyTag exSpecWeb.image exOpts.tag),
        .runContainer (applyTag exSpecWeb.image exOpts.tag)
          (exSpecWeb.name ++ "-new-" ++ toString exEnvHealthFail.timestamp),
        .stop "dddddddddddd" true,
        .runContainer exPrior.image exSpecWeb.name],
       exDb2⟩ :=
  deploy_rollback_behaviour exSpecWeb "node1" exOpts exEnvHealthFail exDb2
    exHc exDeploySpec exPrior "dddddddddddd" rfl rfl rfl rfl rfl (by decide)
    rfl rfl rfl

/-- C2 counterexample: on the rollback path the terminal result is
the service-health-fail error and the deployments bucket holds no
record at all — in particular none with result `rolledback` — so the
claim's "terminal result is rolledback" fails on the code. -/
theorem deploy_rollback_result_is_health_fail :
    (deploy exSpecWeb "node1" exOpts exEnvHealthFail exDb2).outcome =
      .failed .serviceHealthFail ∧
    (deploy exSpecWeb "node1" exOpts exEnvHealthFail exDb2).db.deployments.filter
      (fun kv => kv.2.result == "rolledback") = [] := by
  exact ⟨rfl, rfl⟩

/-! ## Claim C7 — rollback with an empty prior container id -/

/-- C7 evaluated on the code: with a prior ServiceState whose
container id is empty, a failing deploy with rollback enabled panics
slicing `existing.ContainerID[:12]` in the rollback log line — after
stopping the shadow but before starting any rollback container — so
the deploy neither proceeds best-effort nor terminates normally. -/
theorem deploy_empty_prior_id_panics :
    (deploy exSpecWeb "node1" exOpts exEnvHealthFail exDb7).outcome =
      .panicked ∧
    (deploy exSpecWeb "node1" exOpts exEnvHealthFail exDb7).trace =
      [.pull "nginx:1.25", .runContainer "nginx:1.25" "web-new-171",
       .stop "dddddddddddd" true] := by
  exact ⟨rfl, rfl⟩

/-! ## Claim C10 — RunContainer is atomic -/

/-- C10: `RunContainer` either returns a container id that names a
created-and-started (running) container, or returns an error having
force-removed whatever it created, restoring the runtime's container
table; the daemon-assigned id is fresh and of realistic length
(≥ 12 bytes — the error path slices `resp.ID[:12]`). -/
theorem runContainer_atomic
    (st : DockerState) (name : String) (createOk : Bool) (newId : String)
    (startOk : Bool)
    (hlen : 12 ≤ newId.length)
    (hfresh : ∀ c ∈ st.containers, c.id ≠ newId) :
    (dockerRunContainer st name createOk newId startOk).1 ≠ .panicked ∧
    (∀ id, (dockerRunContainer st name createOk newId startOk).1 = .ok id →
      ∃ c ∈ (dockerRunContainer st name createOk newId startOk).2.containers,
        c.id = id ∧ c.running = true) ∧
    ((dockerRunContainer st name createOk newId startOk).1 = .err →
      (dockerRunContainer st name createOk newId startOk).2 = st) := by
  cases createOk with
  | false => simp [dockerRunContainer]
  | true =>
      cases startOk with
      | false =>
          have hfilter : (st.containers ++
              [(⟨newId, name, false⟩ : ContainerRec)]).filter
              (fun c => !(c.id == newId)) = st.containers := by
            rw [List.filter_append,
              List.filter_eq_self.mpr (fun c hc => by simp [hfresh c hc])]
            simp
          have hnl : ¬newId.length < 12 := by omega
          simp [dockerRunContainer, hnl, hfilter]
      | true =>
          simp only [dockerRunContainer, not_true_eq_false, if_false,
            Bool.true_eq_false, ite_false, ite_true]
          refine ⟨by simp, ?_, by simp⟩
          intro id hid
          have hid2 : newId = id := by
            simpa using hid
          refine ⟨⟨newId, name, true⟩, ?_, hid2 ▸ rfl, rfl⟩
          simp

/-! ## Claim C8 — tag override -/

theorem lastColonIdxFrom_spec (s : List Char) :
    ∀ i : Nat,
      (lastColonIdxFrom s i = -1 ∧ ∀ j : Nat, j < i → s[j]? ≠ some ':') ∨
      (∃ j : Nat, lastColonIdxFrom s i = (j : Int) ∧ j < i ∧
        s[j]? = some ':' ∧
        ∀ k : Nat, j < k → k < i → s[k]? ≠ some ':') := by
  intro i
  induction i with
  | zero =>
      left
      exact ⟨rfl, fun j hj => by omega⟩
  | succ m ih =>
      by_cases hc : s[m]? = some ':'
      · right
        refine ⟨m, by simp [lastColonIdxFrom, hc], by omega, hc, ?_⟩
        intro k hk1 hk2
        omega
      · cases ih with
        | inl h =>
            left
            refine ⟨by simp [lastColonIdxFrom, hc, h.1], ?_⟩
            intro j hj
            rcases Nat.lt_succ_iff_lt_or_eq.mp hj with h2 | h2
            · exact h.2 j h2
            · exact h2 ▸ hc
        | inr h =>
            obtain ⟨j, hidx, hjlt, hget, hmax⟩ := h
            right
            refine ⟨j, by simp [lastColonIdxFrom, hc, hidx], by omega, hget, ?_⟩
            intro k hk1 hk2
            rcases Nat.lt_succ_iff_lt_or_eq.mp hk2 with h2 | h2
            · exact hmax k hk1 h2
            · exact h2 ▸ hc

/-- C8: applying a non-empty tag override `t` yields the image with
the substring after its final colon replaced by `t` when the image
contains a colon (the part before and including the final colon is
kept, and nothing after it contained a colon), and `image ++ ":" ++ t`
when it contains none; in particular image:abc with override xyz
yields image:xyz, and a colon-free image yields image:xyz. -/
theorem applyTag_spec (image t : String) (ht : t ≠ "") :
    ((':' ∉ image.data →
        (applyTag image t).data = image.data ++ ':' :: t.data) ∧
     (':' ∈ image.data → ∃ pre post, image.data = pre ++ ':' :: post ∧
        ':' ∉ post ∧ (applyTag image t).data = pre ++ ':' :: t.data)) ∧
    applyTag "image:abc" "xyz" = "image:xyz" ∧
    applyTag "image" "xyz" = "image:xyz" := by
  refine ⟨⟨?_, ?_⟩, by decide, by decide⟩
  · intro hmem
    have hidx : lastColonIdx image.data = -1 := by
      cases lastColonIdxFrom_spec image.data image.data.length with
      | inl h => exact h.1
      | inr h =>
          obtain ⟨j, _, _, hget, _⟩ := h
          obtain ⟨hlt2, he⟩ := List.getElem?_eq_some.mp hget
          exact absurd (he ▸ List.getElem_mem hlt2) hmem
    simp only [applyTag, lastColonIdx, if_neg ht] at *
    rw [hidx]
    rw [if_neg (by omega : ¬((-1 : Int) ≠ -1))]
    rw [String.data_append (image ++ ":") t, String.data_append image ":"]
    simp
  · intro hmem
    cases lastColonIdxFrom_spec image.data image.data.length with
    | inl h =>
        obtain ⟨n, hn⟩ := List.mem_iff_getElem?.mp hmem
        have hlt : n < image.data.length := (List.getElem?_eq_some.mp hn).1
        exact absurd hn (h.2 n hlt)
    | inr h =>
        obtain ⟨j, hidx, hjlt, hget, hmax⟩ := h
        have hlt : j < image.data.length := (List.getElem?_eq_some.mp hget).1
        refine ⟨image.data.take j, image.data.drop (j + 1), ?_, ?_, ?_⟩
        · conv_lhs => rw [← List.take_append_drop j image.data]
          rw [List.drop_eq_getElem_cons hlt,
            (List.getElem?_eq_some.mp hget).2]
        · intro hpost
          obtain ⟨m, hm⟩ := List.mem_iff_getElem?.mp hpost
          rw [List.getElem?_drop image.data (j + 1) m] at hm
          have hklt : j + 1 + m < image.data.length :=
            (List.getElem?_eq_some.mp hm).1
          exact hmax (j + 1 + m) (by omega) hklt hm
        · simp only [applyTag, lastColonIdx, if_neg ht]
          rw [hidx]
          rw [if_pos (by omega : ((j : Int)) ≠ -1)]
          show image.data.take (((j : Int)).toNat + 1) ++ t.data = _
          rw [Int.toNat_ofNat j, List.take_succ, hget]
          simp

/-- C8 witness: the characterisation applied to image:abc with
override xyz. -/
theorem applyTag_spec_witness :
    ("xyz" : String) ≠ "" ∧
    ((':' ∉ ("image:abc" : String).data →
        (applyTag "image:abc" "xyz").data =
          ("image:abc" : String).data ++ ':' :: ("xyz" : String).data) ∧
     (':' ∈ ("image:abc" : String).data →
        ∃ pre post, ("image:abc" : String).data = pre ++ ':' :: post ∧
          ':' ∉ post ∧
          (applyTag "image:abc" "xyz").data = pre ++ ':' :: ("xyz" : String).data)) ∧
    applyTag "image:abc" "xyz" = "image:xyz" ∧
    applyTag "image" "xyz" = "image:xyz" :=
  ⟨by decide, applyTag_spec "image:abc" "xyz" (by decide)⟩

/-- C10 witness: a successful create-and-start on the empty runtime
yields a running container under the returned id. -/
theorem runContainer_atomic_witness :
    12 ≤ ("abcdefghijkl" : String).length ∧
    (∀ c ∈ (⟨[]⟩ : DockerState).containers, c.id ≠ "abcdefghijkl") ∧
    ((dockerRunContainer ⟨[]⟩ "web" true "abcdefghijkl" true).1 ≠ .panicked ∧
     (∀ id, (dockerRunContainer ⟨[]⟩ "web" true "abcdefghijkl" true).1 = .ok id →
       ∃ c ∈ (dockerRunContainer ⟨[]⟩ "web" true "abcdefghijkl" true).2.containers,
         c.id = id ∧ c.running = true) ∧
     ((dockerRunContainer ⟨[]⟩ "web" true "abcdefghijkl" true).1 = .err →
       (dockerRunContainer ⟨[]⟩ "web" true "abcdefghijkl" true).2 = ⟨[]⟩)) :=
  ⟨by decide, by decide,
   runContainer_atomic ⟨[]⟩ "web" true "abcdefghijkl" true (by decide)
     (by decide)⟩

end Orbit
